import Mathlib

/-!
Shallow embedding of the Minecraft-NBT codec (`src/nbtClass.tsx`) and proofs
about its encode / decode behaviour.

Modelling conventions.

* JavaScript strings are modelled by their UTF-8 byte sequences (`List ℕ`),
  so that `utf8Encode.encode` and `utf8Decode.decode` become the identity.
  The MUTF-8 decoded text of a `TAG_String` payload is derived data that no
  property here concerns; the tag keeps the raw payload bytes, exactly as the
  source keeps `_rawPayload`.
* A JavaScript `number` is a finite IEEE-754 double — modelled exactly as a
  rational, since every finite double is a rational — or one of the special
  values `NaN`, `+Infinity`, `-Infinity` (`JSNum`).
* The `stream` object threaded through the codec (an `ArrayBuffer` plus the
  mutable `byteOffset`) is a fixed-length byte list plus an offset
  (`Stream`).  `DataView` and typed-array construction checks
  `offset + length ≤ buffer length` and otherwise throws `RangeError`;
  every read and write of the source goes through such a view, so every
  primitive below carries the same bounds check.
* Exceptions are modelled with `Except`; each distinct failure site of the
  source gets its own `Err` constructor.  When an exception is thrown the
  whole operation aborts, so buffer bytes already written before the
  throwing statement are not observable in the model.
* The decoder is recursive through `TAG_List` / `TAG_Compound`; the model
  adds an explicit fuel argument (`Err.outOfFuel` is returned only when the
  fuel runs out, which never happens for the inputs considered, since one
  unit of fuel is spent per decoded tag).
-/

namespace NBT

/-- A JavaScript `number`: a finite IEEE-754 double (represented exactly as a
rational) or one of the special values `NaN`, `+Infinity`, `-Infinity`. -/
inductive JSNum where
  | fin (q : ℚ)
  | nan
  | posInf
  | negInf
deriving DecidableEq, Repr

/-- The JavaScript comparison `x > c` for a number `x` (false when `x` is
`NaN`). -/
def JSNum.gtQ : JSNum → ℚ → Bool
  | .fin q, c => decide (c < q)
  | .nan, _ => false
  | .posInf, _ => true
  | .negInf, _ => false

/-- The JavaScript comparison `x < c` for a number `x` (false when `x` is
`NaN`). -/
def JSNum.ltQ : JSNum → ℚ → Bool
  | .fin q, c => decide (q < c)
  | .nan, _ => false
  | .posInf, _ => false
  | .negInf, _ => true

/-- The JavaScript predicate `Number.isInteger`. -/
def JSNum.isInteger : JSNum → Bool
  | .fin q => decide (q.den = 1)
  | _ => false

/-- Truncation toward zero, as performed by the `ToIntN` conversion of the
`DataView` integer setters; `NaN` and the infinities map to 0. -/
def JSNum.toIntTrunc : JSNum → ℤ
  | .fin q => if 0 ≤ q then q.floor else -((-q).floor)
  | _ => 0

/-- Byte `i` of a buffer.  Reads are performed only after the bounds check of
the enclosing `DataView` / typed-array construction, so the default value is
never observable on byte-valued buffers. -/
def byteAt (buf : List ℕ) (i : ℕ) : ℕ := buf.getD i 0

/-- The `n` big-endian bytes of `v % 2^(8*n)` (most significant first). -/
def beBytes : ℕ → ℕ → List ℕ
  | 0, _ => []
  | n + 1, v => (v / 256 ^ n % 256) :: beBytes n v

/-- The unsigned big-endian value of the `n` bytes starting at `off`. -/
def beVal (buf : List ℕ) (off : ℕ) : ℕ → ℕ
  | 0 => 0
  | n + 1 => beVal buf off n * 256 + byteAt buf (off + n)

/-- Store a byte sequence at consecutive buffer positions (`setUint8` and the
other setters; each stored value is reduced to its low 8 bits). -/
def setBytes : List ℕ → ℕ → List ℕ → List ℕ
  | buf, _, [] => buf
  | buf, p, v :: vs => setBytes (buf.set p (v % 256)) (p + 1) vs

/-- Reinterpret an unsigned byte as `getInt8` does. -/
def toInt8 (u : ℕ) : ℤ := if u < 2 ^ 7 then (u : ℤ) else (u : ℤ) - 2 ^ 8

/-- Reinterpret an unsigned 16-bit value as `getInt16` does. -/
def toInt16 (u : ℕ) : ℤ := if u < 2 ^ 15 then (u : ℤ) else (u : ℤ) - 2 ^ 16

/-- Reinterpret an unsigned 32-bit value as `getInt32` does. -/
def toInt32 (u : ℕ) : ℤ := if u < 2 ^ 31 then (u : ℤ) else (u : ℤ) - 2 ^ 32

/-- Reinterpret an unsigned 64-bit value as `getBigInt64` does. -/
def toInt64 (u : ℕ) : ℤ := if u < 2 ^ 63 then (u : ℤ) else (u : ℤ) - 2 ^ 64

/-- The low `w` bits of an integer as an unsigned value (the wrapping
conversion performed by `setIntN` / `setBigInt64`). -/
def intBits (w : ℕ) (i : ℤ) : ℕ := (i % (2 ^ w : ℤ)).toNat

/-- Group a byte list into big-endian 32-bit signed values
(`_arrayFromDataView` with `dataSize = 32`). -/
def int32sOfBytes : List ℕ → List ℤ
  | b0 :: b1 :: b2 :: b3 :: rest =>
    toInt32 (((b0 * 256 + b1) * 256 + b2) * 256 + b3) :: int32sOfBytes rest
  | _ => []

/-- Group a byte list into big-endian 64-bit signed values
(`_arrayFromDataView` with `dataSize = 64`). -/
def int64sOfBytes : List ℕ → List ℤ
  | b0 :: b1 :: b2 :: b3 :: b4 :: b5 :: b6 :: b7 :: rest =>
    toInt64 (((((((b0 * 256 + b1) * 256 + b2) * 256 + b3) * 256 + b4) * 256
      + b5) * 256 + b6) * 256 + b7) :: int64sOfBytes rest
  | _ => []

/-- The rational `2 ^ e` for an integer exponent. -/
def pow2Q (e : ℤ) : ℚ :=
  if 0 ≤ e then mkRat (2 ^ e.toNat) 1 else mkRat 1 (2 ^ (-e).toNat)

/-- Round a rational to the nearest integer, ties to even. -/
def roundTiesEven (q : ℚ) : ℤ :=
  let f := q.floor
  let r := q - (f : ℚ)
  if r < 1 / 2 then f
  else if 1 / 2 < r then f + 1
  else if f % 2 = 0 then f else f + 1

/-- Exponent and mantissa fields of the IEEE-754 binary encoding (round to
nearest, ties to even) of a positive rational, for a format with `mbits`
mantissa bits, bias `bias`, maximal normal exponent `emax` and all-ones
exponent field `maxField`.  This models the double→binary32 (resp. binary64)
conversion performed by `setFloat32` / `setFloat64`. -/
def ieeeEncodePos (mbits : ℕ) (bias emax : ℤ) (maxField : ℕ) (a : ℚ) :
    ℕ × ℕ :=
  let emin : ℤ := 1 - bias
  let e0 : ℤ := max (Int.log 2 a) emin
  let m0 : ℤ := roundTiesEven (a * pow2Q ((mbits : ℤ) - e0))
  let e1 : ℤ := if m0 = 2 ^ (mbits + 1) then e0 + 1 else e0
  let m1 : ℤ := if m0 = 2 ^ (mbits + 1) then 2 ^ mbits else m0
  if emax < e1 then (maxField, 0)
  else if m1 < 2 ^ mbits then (0, m1.toNat)
  else ((e1 + bias).toNat, (m1 - 2 ^ mbits).toNat)

/-- The 4 bytes written by `setFloat32` (big endian; the canonical quiet NaN
payload is the one V8 writes). -/
def encodeFloat32 : JSNum → List ℕ
  | .nan => beBytes 4 0x7FC00000
  | .posInf => beBytes 4 0x7F800000
  | .negInf => beBytes 4 0xFF800000
  | .fin q =>
    if q = 0 then beBytes 4 0
    else
      let s : ℕ := if q < 0 then 1 else 0
      let fields := ieeeEncodePos 23 127 127 255 |q|
      beBytes 4 (s * 2 ^ 31 + fields.1 * 2 ^ 23 + fields.2)

/-- The 8 bytes written by `setFloat64` (big endian). -/
def encodeFloat64 : JSNum → List ℕ
  | .nan => beBytes 8 0x7FF8000000000000
  | .posInf => beBytes 8 0x7FF0000000000000
  | .negInf => beBytes 8 0xFFF0000000000000
  | .fin q =>
    if q = 0 then beBytes 8 0
    else
      let s : ℕ := if q < 0 then 1 else 0
      let fields := ieeeEncodePos 52 1023 1023 2047 |q|
      beBytes 8 (s * 2 ^ 63 + fields.1 * 2 ^ 52 + fields.2)

/-- The number read by `getFloat32` from a 32-bit word. -/
def decodeFloat32 (bits : ℕ) : JSNum :=
  let s : ℕ := bits / 2 ^ 31
  let ef : ℕ := bits / 2 ^ 23 % 2 ^ 8
  let m : ℕ := bits % 2 ^ 23
  if ef = 255 then
    if m = 0 then (if s = 1 then .negInf else .posInf) else .nan
  else
    let mag : ℚ :=
      if ef = 0 then mkRat m (2 ^ 149)
      else if 150 ≤ ef then mkRat ((2 ^ 23 + m) * 2 ^ (ef - 150)) 1
      else mkRat (2 ^ 23 + m) (2 ^ (150 - ef))
    .fin (if s = 1 then -mag else mag)

/-- The number read by `getFloat64` from a 64-bit word. -/
def decodeFloat64 (bits : ℕ) : JSNum :=
  let s : ℕ := bits / 2 ^ 63
  let ef : ℕ := bits / 2 ^ 52 % 2 ^ 11
  let m : ℕ := bits % 2 ^ 52
  if ef = 2047 then
    if m = 0 then (if s = 1 then .negInf else .posInf) else .nan
  else
    let mag : ℚ :=
      if ef = 0 then mkRat m (2 ^ 1074)
      else if 1075 ≤ ef then mkRat ((2 ^ 52 + m) * 2 ^ (ef - 1075)) 1
      else mkRat (2 ^ 52 + m) (2 ^ (1075 - ef))
    .fin (if s = 1 then -mag else mag)

/-- One constructor per distinct failure site of the source:
`endOfBuffer` is the explicit `Error("Reached end of buffer")` thrown at the
entry of `parseNBT`; `rangeError` is the `RangeError` thrown by a `DataView`,
typed-array or `Array` construction whose extent (or length operand) is
invalid; `unknownTag` is `Error("Unexppected tag type")`; `invalidPayload` is
the `Error("Invalid payload ...")` of the scalar constructors; `listMismatch`
is the `TAG_List` constructor error; `compoundNoEnd` is
`Error("TAG_Compound must end with a TAG_End")`; `typeError` is the JS
`TypeError` raised by a property access on `undefined`; `outOfFuel` is the
artefact of the explicit decoder fuel, never returned for sufficient fuel. -/
inductive Err where
  | endOfBuffer
  | rangeError
  | unknownTag
  | invalidPayload
  | listMismatch
  | compoundNoEnd
  | typeError
  | outOfFuel
deriving DecidableEq, Repr

/-- The failure kinds that report insufficient input bytes (the spec's
truncated-input error): the end-of-buffer entry check and the `RangeError`
of an out-of-bounds view. -/
def Err.isTruncation : Err → Bool
  | .endOfBuffer => true
  | .rangeError => true
  | _ => false

/-- Decidable equality of `Except` results, used to evaluate the codec on
concrete inputs. -/
instance {ε α : Type} [DecidableEq ε] [DecidableEq α] :
    DecidableEq (Except ε α) := fun x y =>
  match x, y with
  | .ok a, .ok b =>
    match decEq a b with
    | isTrue h => isTrue (h ▸ rfl)
    | isFalse h => isFalse fun hh => h (Except.ok.inj hh)
  | .error a, .error b =>
    match decEq a b with
    | isTrue h => isTrue (h ▸ rfl)
    | isFalse h => isFalse fun hh => h (Except.error.inj hh)
  | .ok _, .error _ => isFalse fun hh => Except.noConfusion hh
  | .error _, .ok _ => isFalse fun hh => Except.noConfusion hh

/-- The error of a failed computation, if any. -/
def resErr {α : Type} : Except Err α → Option Err
  | .error e => some e
  | .ok _ => none

/-- The `stream` argument threaded through the whole codec: an `ArrayBuffer`
(fixed-length byte sequence) together with the mutable `byteOffset`. -/
structure Stream where
  buffer : List ℕ
  byteOffset : ℕ
deriving DecidableEq, Repr

/-- Bounds check of `new DataView(buffer, byteOffset, len)` (and of the
typed-array constructors): the view fits the buffer. -/
def viewOk (st : Stream) (len : ℕ) : Bool :=
  st.byteOffset + len ≤ st.buffer.length

/-- One tag value per `TAG_*` class of the source.  `nameLength` and `name`
are the two leading constructor arguments stored on every tag (`TAG_End`
always stores `0` and the empty name); the remaining field is the stored
payload.  A list stores its declared element type id `_tagType`; a string
stores its raw payload bytes `_rawPayload`. -/
inductive Tag where
  | tagEnd
  | byte (nameLength : ℕ) (name : List ℕ) (payload : JSNum)
  | short (nameLength : ℕ) (name : List ℕ) (payload : JSNum)
  | int (nameLength : ℕ) (name : List ℕ) (payload : JSNum)
  | long (nameLength : ℕ) (name : List ℕ) (payload : ℤ)
  | float (nameLength : ℕ) (name : List ℕ) (payload : JSNum)
  | double (nameLength : ℕ) (name : List ℕ) (payload : JSNum)
  | byteArray (nameLength : ℕ) (name : List ℕ) (payload : List ℤ)
  | string (nameLength : ℕ) (name : List ℕ) (rawPayload : List ℕ)
  | list (nameLength : ℕ) (name : List ℕ) (tagType : ℕ) (payload : List Tag)
  | compound (nameLength : ℕ) (name : List ℕ) (payload : List Tag)
  | intArray (nameLength : ℕ) (name : List ℕ) (payload : List ℤ)
  | longArray (nameLength : ℕ) (name : List ℕ) (payload : List ℤ)

/-- The static `ID` of the tag's class, stored in `this.id` at
construction. -/
def Tag.id : Tag → ℕ
  | .tagEnd => 0
  | .byte .. => 1
  | .short .. => 2
  | .int .. => 3
  | .long .. => 4
  | .float .. => 5
  | .double .. => 6
  | .byteArray .. => 7
  | .string .. => 8
  | .list .. => 9
  | .compound .. => 10
  | .intArray .. => 11
  | .longArray .. => 12

/-- The stored `nameLength` field (`TAG_End` stores 0). -/
def Tag.nameLength : Tag → ℕ
  | .tagEnd => 0
  | .byte n _ _ => n
  | .short n _ _ => n
  | .int n _ _ => n
  | .long n _ _ => n
  | .float n _ _ => n
  | .double n _ _ => n
  | .byteArray n _ _ => n
  | .string n _ _ => n
  | .list n _ _ _ => n
  | .compound n _ _ => n
  | .intArray n _ _ => n
  | .longArray n _ _ => n

/-- The stored `name` field (`TAG_End` stores the empty name). -/
def Tag.name : Tag → List ℕ
  | .tagEnd => []
  | .byte _ m _ => m
  | .short _ m _ => m
  | .int _ m _ => m
  | .long _ m _ => m
  | .float _ m _ => m
  | .double _ m _ => m
  | .byteArray _ m _ => m
  | .string _ m _ => m
  | .list _ m _ _ => m
  | .compound _ m _ => m
  | .intArray _ m _ => m
  | .longArray _ m _ => m

/-- The numeric payload of a scalar `number`-payload tag, if any. -/
def Tag.payloadNum : Tag → Option JSNum
  | .byte _ _ p => some p
  | .short _ _ p => some p
  | .int _ _ p => some p
  | .float _ _ p => some p
  | .double _ _ p => some p
  | _ => none

/-- Header length: `TAG_End` overrides it to 1; every other class computes
`1 + 2 + this.headerLength` where the instance field `headerLength` is
initialised to 2 and never reassigned, so the result is the constant 5 and
ignores the actual name byte count. -/
def Tag.getHeaderLength : Tag → ℕ
  | .tagEnd => 1
  | _ => 1 + 2 + 2

mutual

/-- Payload length per class: scalars are their fixed width; a byte array is
`4 + n`; a string is `2 + n`; a list is `2 + _payloadLength` where the
constructor sets `_payloadLength = 1 + 4 + Σ child total length`; a compound
is `Σ child total length`; int / long arrays are `4 + 4n` / `4 + 8n`.  (The
source caches these values at construction; tags are immutable, so the
cached value and this recomputation agree.) -/
def Tag.getPayloadLength : Tag → ℕ
  | .tagEnd => 0
  | .byte .. => 1
  | .short .. => 2
  | .int .. => 4
  | .long .. => 8
  | .float .. => 4
  | .double .. => 8
  | .byteArray _ _ p => 4 + p.length
  | .string _ _ raw => 2 + raw.length
  | .list _ _ _ p => 2 + (1 + 4 + totalLengthList p)
  | .compound _ _ p => totalLengthList p
  | .intArray _ _ p => 4 + p.length * 4
  | .longArray _ _ p => 4 + p.length * 8

/-- The `reduce((a, b) => a + b.getTotalLength(), 0)` of the container
constructors. -/
def totalLengthList : List Tag → ℕ
  | [] => 0
  | t :: ts => (t.getHeaderLength + t.getPayloadLength) + totalLengthList ts

end

/-- Total length: header length plus payload length. -/
def Tag.getTotalLength (t : Tag) : ℕ := t.getHeaderLength + t.getPayloadLength

/-- The `TAG_End` constructor: ignores its arguments and stores the fixed
name data. -/
def TAG_End.mk (_nameLength : ℕ) (_name : List ℕ) : Except Err Tag :=
  .ok .tagEnd

/-- The `TAG_Byte` constructor: rejects `payload > 127 || payload < -128`
(note: no integrality check, unlike `TAG_Short` / `TAG_Int`). -/
def TAG_Byte.mk (nameLength : ℕ) (name : List ℕ) (payload : JSNum) :
    Except Err Tag :=
  if payload.gtQ 127 || payload.ltQ (-128) then .error .invalidPayload
  else .ok (.byte nameLength name payload)

/-- The `TAG_Short` constructor: rejects out-of-range or non-integral
payloads. -/
def TAG_Short.mk (nameLength : ℕ) (name : List ℕ) (payload : JSNum) :
    Except Err Tag :=
  if payload.gtQ 32767 || payload.ltQ (-32768) || !payload.isInteger then
    .error .invalidPayload
  else .ok (.short nameLength name payload)

/-- The `TAG_Int` constructor: rejects out-of-range or non-integral
payloads. -/
def TAG_Int.mk (nameLength : ℕ) (name : List ℕ) (payload : JSNum) :
    Except Err Tag :=
  if payload.gtQ 2147483647 || payload.ltQ (-2147483648) || !payload.isInteger
  then .error .invalidPayload
  else .ok (.int nameLength name payload)

/-- The `TAG_Long` constructor.  The source compares against
`BigInt(9223372036854775807)` and `BigInt(-9223372036854775808)`; both
arguments are `number` literals, and `9223372036854775807` is not exactly
representable as a double — it rounds to `2^63` — so the accepted upper
bound is `2^63`, not `2^63 - 1` (the lower literal is exactly `-2^63`).
The trailing `typeof payload !== "bigint"` test of the source is dead code
for a bigint payload and has no counterpart here. -/
def TAG_Long.mk (nameLength : ℕ) (name : List ℕ) (payload : ℤ) :
    Except Err Tag :=
  if 9223372036854775808 < payload ∨ payload < -9223372036854775808 then
    .error .invalidPayload
  else .ok (.long nameLength name payload)

/-- The `TAG_Float` constructor: rejects integral payloads
(`Number.isInteger(payload)`); the `typeof payload !== "number"` test is
always false for a number payload. -/
def TAG_Float.mk (nameLength : ℕ) (name : List ℕ) (payload : JSNum) :
    Except Err Tag :=
  if payload.isInteger then .error .invalidPayload
  else .ok (.float nameLength name payload)

/-- The `TAG_Double` constructor: same checks as `TAG_Float`. -/
def TAG_Double.mk (nameLength : ℕ) (name : List ℕ) (payload : JSNum) :
    Except Err Tag :=
  if payload.isInteger then .error .invalidPayload
  else .ok (.double nameLength name payload)

/-- The `TAG_Byte_Array` constructor: stores the payload and its length, no
validation. -/
def TAG_Byte_Array.mk (nameLength : ℕ) (name : List ℕ) (payload : List ℤ) :
    Except Err Tag :=
  .ok (.byteArray nameLength name payload)

/-- The `TAG_String` constructor: stores the raw payload bytes and their
length (the MUTF-8 decoded text is derived data, not modelled). -/
def TAG_String.mk (nameLength : ℕ) (name : List ℕ) (rawPayload : List ℕ) :
    Except Err Tag :=
  .ok (.string nameLength name rawPayload)

/-- The `TAG_List` constructor: rejects the list when some element has a
type id different from the declared element type or a nonzero stored name
length. -/
def TAG_List.mk (nameLength : ℕ) (name : List ℕ) (tagType : ℕ)
    (payload : List Tag) : Except Err Tag :=
  if payload.any fun t => t.id != tagType || t.nameLength != 0 then
    .error .listMismatch
  else .ok (.list nameLength name tagType payload)

/-- The `TAG_Compound` constructor: checks
`payload[payload.length - 1].id !== TAG_End.ID`.  On an empty payload,
`payload[-1]` is `undefined` and the `.id` access throws a `TypeError`;
otherwise a last element that is not an End tag raises the structural
error. -/
def TAG_Compound.mk (nameLength : ℕ) (name : List ℕ) (payload : List Tag) :
    Except Err Tag :=
  match payload.getLast? with
  | none => .error .typeError
  | some t => if t.id != 0 then .error .compoundNoEnd
              else .ok (.compound nameLength name payload)

/-- The `TAG_Int_Array` constructor: stores the payload and its length, no
validation. -/
def TAG_Int_Array.mk (nameLength : ℕ) (name : List ℕ) (payload : List ℤ) :
    Except Err Tag :=
  .ok (.intArray nameLength name payload)

/-- The `TAG_Long_Array` constructor: stores the payload and its length, no
validation. -/
def TAG_Long_Array.mk (nameLength : ℕ) (name : List ℕ) (payload : List ℤ) :
    Except Err Tag :=
  .ok (.longArray nameLength name payload)

/-- The per-iteration `data.setUint8(k + idx, value)` loop of `writeHeader`:
each write is bounds-checked against the view length `len` (view based at
absolute position `base`), as `setUint8` is. -/
def writeBytesIn (base len : ℕ) : List ℕ → ℕ → List ℕ → Except Err (List ℕ)
  | [], _, buf => .ok buf
  | v :: vs, k, buf =>
    if k + 1 ≤ len then writeBytesIn base len vs (k + 1) (buf.set (base + k) (v % 256))
    else .error .rangeError

/-- `writeHeader`.  `TAG_End` overrides it to write only its 1-byte type id.
Every other class creates a `DataView` of `getHeaderLength()` (= 5) bytes,
writes the id at view offset 0, then — via `setUint32(1, nameLength)` — four
big-endian bytes of the name length at view offsets 1..4, then the name
bytes starting at view offset 3 (overwriting the low name-length bytes, and
throwing `RangeError` past view offset 4, i.e. for names longer than 2
bytes), and finally advances the offset by the view length 5. -/
def Tag.writeHeader : Tag → Stream → Except Err Stream
  | .tagEnd, st =>
    if viewOk st 1 then .ok ⟨st.buffer.set st.byteOffset 0, st.byteOffset + 1⟩
    else .error .rangeError
  | t, st =>
    let hl := t.getHeaderLength
    if viewOk st hl then
      let b1 := st.buffer.set st.byteOffset (t.id % 256)
      let b2 := setBytes b1 (st.byteOffset + 1) (beBytes 4 t.nameLength)
      match writeBytesIn st.byteOffset hl t.name 3 b2 with
      | .error e => .error e
      | .ok b3 => .ok ⟨b3, st.byteOffset + hl⟩
    else .error .rangeError

mutual

/-- `writePayload` per class.  Every class except `TAG_Compound` first
creates a `DataView` of the bytes it is about to write (bounds check), then
writes them and advances the offset; `TAG_List` writes its element type id
and element count, advances by 5, then writes each element payload (only);
`TAG_Compound` writes each member with `toBytes` (full header plus
payload). -/
def Tag.writePayload : Tag → Stream → Except Err Stream
  | .tagEnd, st => .ok st
  | .byte _ _ v, st =>
    if viewOk st 1 then
      .ok ⟨setBytes st.buffer st.byteOffset [intBits 8 v.toIntTrunc], st.byteOffset + 1⟩
    else .error .rangeError
  | .short _ _ v, st =>
    if viewOk st 2 then
      .ok ⟨setBytes st.buffer st.byteOffset (beBytes 2 (intBits 16 v.toIntTrunc)), st.byteOffset + 2⟩
    else .error .rangeError
  | .int _ _ v, st =>
    if viewOk st 4 then
      .ok ⟨setBytes st.buffer st.byteOffset (beBytes 4 (intBits 32 v.toIntTrunc)), st.byteOffset + 4⟩
    else .error .rangeError
  | .long _ _ v, st =>
    if viewOk st 8 then
      .ok ⟨setBytes st.buffer st.byteOffset (beBytes 8 (intBits 64 v)), st.byteOffset + 8⟩
    else .error .rangeError
  | .float _ _ v, st =>
    if viewOk st 4 then
      .ok ⟨setBytes st.buffer st.byteOffset (encodeFloat32 v), st.byteOffset + 4⟩
    else .error .rangeError
  | .double _ _ v, st =>
    if viewOk st 8 then
      .ok ⟨setBytes st.buffer st.byteOffset (encodeFloat64 v), st.byteOffset + 8⟩
    else .error .rangeError
  | .byteArray _ _ p, st =>
    if viewOk st (4 + p.length) then
      .ok ⟨setBytes st.buffer st.byteOffset (beBytes 4 p.length ++ p.map (intBits 8)),
           st.byteOffset + (4 + p.length)⟩
    else .error .rangeError
  | .string _ _ raw, st =>
    if viewOk st (2 + raw.length) then
      .ok ⟨setBytes st.buffer st.byteOffset (beBytes 2 raw.length ++ raw),
           st.byteOffset + (2 + raw.length)⟩
    else .error .rangeError
  | .list _ _ tt p, st =>
    if viewOk st 5 then
      writePayloadList p
        ⟨setBytes st.buffer st.byteOffset (tt % 256 :: beBytes 4 p.length), st.byteOffset + 5⟩
    else .error .rangeError
  | .compound _ _ p, st => toBytesList p st
  | .intArray _ _ p, st =>
    if viewOk st (4 + p.length * 4) then
      .ok ⟨setBytes st.buffer st.byteOffset
             (beBytes 4 p.length ++ (p.map fun v => beBytes 4 (intBits 32 v)).flatten),
           st.byteOffset + (4 + p.length * 4)⟩
    else .error .rangeError
  | .longArray _ _ p, st =>
    if viewOk st (4 + p.length * 8) then
      .ok ⟨setBytes st.buffer st.byteOffset
             (beBytes 4 p.length ++ (p.map fun v => beBytes 8 (intBits 64 v)).flatten),
           st.byteOffset + (4 + p.length * 8)⟩
    else .error .rangeError

/-- The `for (const tag of this.payload) tag.writePayload(stream)` loop of
`TAG_List.writePayload`. -/
def writePayloadList : List Tag → Stream → Except Err Stream
  | [], st => .ok st
  | t :: ts, st =>
    match t.writePayload st with
    | .error e => .error e
    | .ok st1 => writePayloadList ts st1

/-- The `for (const tag of this.payload) tag.toBytes(stream)` loop of
`TAG_Compound.writePayload`: each member is written with its full
`toBytes` (header, then payload). -/
def toBytesList : List Tag → Stream → Except Err Stream
  | [], st => .ok st
  | t :: ts, st =>
    match t.writeHeader st with
    | .error e => .error e
    | .ok st1 =>
      match t.writePayload st1 with
      | .error e => .error e
      | .ok st2 => toBytesList ts st2

end

/-- `toBytes`: write the header, then the payload. -/
def Tag.toBytes (t : Tag) (st : Stream) : Except Err Stream :=
  match t.writeHeader st with
  | .error e => .error e
  | .ok st1 => t.writePayload st1

/-- `new DataView(buffer, byteOffset++, 1).getUint8(0)`: read one unsigned
byte and advance. -/
def readUint8 (st : Stream) : Except Err (ℕ × Stream) :=
  if viewOk st 1 then .ok (byteAt st.buffer st.byteOffset, ⟨st.buffer, st.byteOffset + 1⟩)
  else .error .rangeError

/-- `getUint16(0, false)` on a 2-byte view, advancing by 2. -/
def readUint16 (st : Stream) : Except Err (ℕ × Stream) :=
  if viewOk st 2 then .ok (beVal st.buffer st.byteOffset 2, ⟨st.buffer, st.byteOffset + 2⟩)
  else .error .rangeError

/-- `getInt8(0)` on a 1-byte view, advancing by 1. -/
def readInt8 (st : Stream) : Except Err (ℤ × Stream) :=
  if viewOk st 1 then
    .ok (toInt8 (byteAt st.buffer st.byteOffset), ⟨st.buffer, st.byteOffset + 1⟩)
  else .error .rangeError

/-- `getInt16(0, false)` on a 2-byte view, advancing by 2. -/
def readInt16 (st : Stream) : Except Err (ℤ × Stream) :=
  if viewOk st 2 then
    .ok (toInt16 (beVal st.buffer st.byteOffset 2), ⟨st.buffer, st.byteOffset + 2⟩)
  else .error .rangeError

/-- `getInt32(0, false)` on a 4-byte view, advancing by 4. -/
def readInt32 (st : Stream) : Except Err (ℤ × Stream) :=
  if viewOk st 4 then
    .ok (toInt32 (beVal st.buffer st.byteOffset 4), ⟨st.buffer, st.byteOffset + 4⟩)
  else .error .rangeError

/-- `getBigInt64(0, false)` on an 8-byte view, advancing by 8. -/
def readInt64 (st : Stream) : Except Err (ℤ × Stream) :=
  if viewOk st 8 then
    .ok (toInt64 (beVal st.buffer st.byteOffset 8), ⟨st.buffer, st.byteOffset + 8⟩)
  else .error .rangeError

/-- `getFloat32(0, false)` on a 4-byte view, advancing by 4. -/
def readFloat32 (st : Stream) : Except Err (JSNum × Stream) :=
  if viewOk st 4 then
    .ok (decodeFloat32 (beVal st.buffer st.byteOffset 4), ⟨st.buffer, st.byteOffset + 4⟩)
  else .error .rangeError

/-- `getFloat64(0, false)` on an 8-byte view, advancing by 8. -/
def readFloat64 (st : Stream) : Except Err (JSNum × Stream) :=
  if viewOk st 8 then
    .ok (decodeFloat64 (beVal st.buffer st.byteOffset 8), ⟨st.buffer, st.byteOffset + 8⟩)
  else .error .rangeError

/-- A typed-array view of `n` bytes at the current offset (`Uint8Array` /
`Int8Array` construction, bounds-checked), advancing by `n`. -/
def readBytesSlice (st : Stream) (n : ℕ) : Except Err (List ℕ × Stream) :=
  if viewOk st n then
    .ok ((st.buffer.drop st.byteOffset).take n, ⟨st.buffer, st.byteOffset + n⟩)
  else .error .rangeError

/-- `_getNBTName`: read the 2-byte big-endian name length, then that many
name bytes, advancing past both; returns `(name, nameLength)`. -/
def getNBTName (st : Stream) : Except Err ((List ℕ × ℕ) × Stream) :=
  match readUint16 st with
  | .error e => .error e
  | .ok (nameLength, st1) =>
    match readBytesSlice st1 nameLength with
    | .error e => .error e
    | .ok (name, st2) => .ok ((name, nameLength), st2)

/-- Pair a constructed tag with the stream position reached after reading
its payload (`new tagClass(nameLength, name, tagClass.readPayload(stream))`:
the payload is read first, then the constructor runs). -/
def withSt (st : Stream) : Except Err Tag → Except Err (Tag × Stream)
  | .error e => .error e
  | .ok t => .ok (t, st)

mutual

/-- `parseNBT`.  Checks `buffer.byteLength <= byteOffset` at entry, reads
the type id byte, reads the name fields via `_getNBTName` whenever the id is
nonzero (before the id is looked up in `TAG_ID_TO_CLASS`), then dispatches:
an id among the 13 known ids 0–12 reads the payload and runs the class
constructor; any other id throws `Error("Unexppected tag type")`. -/
def parseNBT : ℕ → Stream → Except Err (Tag × Stream)
  | 0, _ => .error .outOfFuel
  | fuel + 1, st =>
    if st.buffer.length ≤ st.byteOffset then .error .endOfBuffer
    else
      match readUint8 st with
      | .error e => .error e
      | .ok (tagId, st1) =>
        match (if tagId != 0 then getNBTName st1 else .ok (([], 0), st1)) with
        | .error e => .error e
        | .ok ((name, nameLength), st2) =>
          if tagId ≤ 12 then readAndMk fuel tagId nameLength name st2
          else .error .unknownTag

/-- Read the payload of the class with the given type id and run its
constructor (`new tagClass(nameLength, name, tagClass.readPayload(stream))`).
The catch-all models a list element of an id absent from `TAG_ID_TO_CLASS`:
`tagClass` is `undefined` and `tagClass.readPayload` throws a `TypeError`
(top-level decode never reaches it, having already rejected such ids). -/
def readAndMk : ℕ → ℕ → ℕ → List ℕ → Stream → Except Err (Tag × Stream)
  | 0, _, _, _, _ => .error .outOfFuel
  | fuel + 1, tagId, nameLength, name, st =>
    match tagId with
    | 0 => withSt st (TAG_End.mk nameLength name)
    | 1 =>
      match readInt8 st with
      | .error e => .error e
      | .ok (v, st1) => withSt st1 (TAG_Byte.mk nameLength name (.fin (v : ℚ)))
    | 2 =>
      match readInt16 st with
      | .error e => .error e
      | .ok (v, st1) => withSt st1 (TAG_Short.mk nameLength name (.fin (v : ℚ)))
    | 3 =>
      match readInt32 st with
      | .error e => .error e
      | .ok (v, st1) => withSt st1 (TAG_Int.mk nameLength name (.fin (v : ℚ)))
    | 4 =>
      match readInt64 st with
      | .error e => .error e
      | .ok (v, st1) => withSt st1 (TAG_Long.mk nameLength name v)
    | 5 =>
      match readFloat32 st with
      | .error e => .error e
      | .ok (v, st1) => withSt st1 (TAG_Float.mk nameLength name v)
    | 6 =>
      match readFloat64 st with
      | .error e => .error e
      | .ok (v, st1) => withSt st1 (TAG_Double.mk nameLength name v)
    | 7 =>
      -- TAG_Byte_Array.readPayload: getInt32 count, then an Int8Array view
      -- of that many bytes (a negative count makes the Int8Array length
      -- operand invalid: RangeError).
      match readInt32 st with
      | .error e => .error e
      | .ok (n, st1) =>
        if n < 0 then .error .rangeError
        else
          match readBytesSlice st1 n.toNat with
          | .error e => .error e
          | .ok (bs, st2) => withSt st2 (TAG_Byte_Array.mk nameLength name (bs.map toInt8))
    | 8 =>
      -- TAG_String.readPayload: getUint16 length, then a Uint8Array view.
      match readUint16 st with
      | .error e => .error e
      | .ok (n, st1) =>
        match readBytesSlice st1 n with
        | .error e => .error e
        | .ok (bs, st2) => withSt st2 (TAG_String.mk nameLength name bs)
    | 9 =>
      -- TAG_List.readPayload: getUint8 element type id, getInt32 count
      -- (a negative count makes new Array(count) throw RangeError), then
      -- count payload-only elements of the declared type.
      match readUint8 st with
      | .error e => .error e
      | .ok (tt, st1) =>
        match readInt32 st1 with
        | .error e => .error e
        | .ok (n, st2) =>
          if n < 0 then .error .rangeError
          else
            match readListElems fuel tt n.toNat st2 with
            | .error e => .error e
            | .ok (elems, st3) => withSt st3 (TAG_List.mk nameLength name tt elems)
    | 10 =>
      match readCompoundPayload fuel st with
      | .error e => .error e
      | .ok (mem, st1) => withSt st1 (TAG_Compound.mk nameLength name mem)
    | 11 =>
      -- TAG_Int_Array.readPayload: getInt32 count, then a DataView of
      -- count*4 bytes read as big-endian Int32 values.
      match readInt32 st with
      | .error e => .error e
      | .ok (n, st1) =>
        if n < 0 then .error .rangeError
        else
          match readBytesSlice st1 (n.toNat * 4) with
          | .error e => .error e
          | .ok (bs, st2) => withSt st2 (TAG_Int_Array.mk nameLength name (int32sOfBytes bs))
    | 12 =>
      -- TAG_Long_Array.readPayload: getInt32 count, then a DataView of
      -- count*8 bytes read as big-endian Int64 values.
      match readInt32 st with
      | .error e => .error e
      | .ok (n, st1) =>
        if n < 0 then .error .rangeError
        else
          match readBytesSlice st1 (n.toNat * 8) with
          | .error e => .error e
          | .ok (bs, st2) => withSt st2 (TAG_Long_Array.mk nameLength name (int64sOfBytes bs))
    | _ => .error .typeError

/-- The `for (let i = 0; i < payloadLength; i++)` loop of
`TAG_List.readPayload`: each iteration reads one payload of the declared
element type and constructs an unnamed tag from it. -/
def readListElems : ℕ → ℕ → ℕ → Stream → Except Err (List Tag × Stream)
  | 0, _, _, _ => .error .outOfFuel
  | _ + 1, _, 0, st => .ok ([], st)
  | fuel + 1, tt, n + 1, st =>
    match readAndMk fuel tt 0 [] st with
    | .error e => .error e
    | .ok (t, st1) =>
      match readListElems fuel tt n st1 with
      | .error e => .error e
      | .ok (ts, st2) => .ok (t :: ts, st2)

/-- The do-while loop of `TAG_Compound.readPayload`: parse full tags until
(and including) one whose id is `TAG_End.ID`. -/
def readCompoundPayload : ℕ → Stream → Except Err (List Tag × Stream)
  | 0, _ => .error .outOfFuel
  | fuel + 1, st =>
    match parseNBT fuel st with
    | .error e => .error e
    | .ok (t, st1) =>
      if t.id != 0 then
        match readCompoundPayload fuel st1 with
        | .error e => .error e
        | .ok (ts, st2) => .ok (t :: ts, st2)
      else .ok ([t], st1)

end

/-- The sum computed by `reduce((a, b) => a + b.getTotalLength(), 0)` equals
the sum of the children's total lengths. -/
theorem totalLengthList_eq (l : List Tag) :
    totalLengthList l = (l.map Tag.getTotalLength).sum := by
  induction l with
  | nil => simp [totalLengthList]
  | cons t ts ih => simp [totalLengthList, Tag.getTotalLength, ih]

/-- C1: the round-trip claim (`decode(encode(T))` structurally equal to `T`,
consuming `T.totalLength()` bytes) fails on the code.  For the root tag
`TAG_Byte(nameLength 0, name "", payload 5)`: encoding into its exact-size
6-byte buffer produces `[1,0,0,0,0,5]` (the header always occupies 5 bytes,
with the name length written as 4 big-endian bytes at offset 1), but decoding
those bytes reads the payload at offset 3 and returns a Byte tag with name
"" and payload 0 after consuming only 4 bytes: the payload differs (0 ≠ 5)
and the consumption differs (4 ≠ totalLength = 6). -/
theorem c1_roundtrip_fails :
    Tag.toBytes (.byte 0 [] (.fin 5)) ⟨List.replicate 6 0, 0⟩ =
      .ok ⟨[1, 0, 0, 0, 0, 5], 6⟩ ∧
    (parseNBT 9 ⟨[1, 0, 0, 0, 0, 5], 0⟩).map
        (fun r => (r.1.id, r.1.payloadNum, r.1.nameLength, r.2.byteOffset))
      = .ok (1, some (.fin 0), 0, 4) ∧
    Tag.getTotalLength (.byte 0 [] (.fin 5)) = 6 ∧
    JSNum.fin 0 ≠ JSNum.fin 5 ∧ (4 : ℕ) ≠ 6 :=
  ⟨by decide, by decide, by decide, by decide, by decide⟩

/-- C2: the claim that encoding advances the cursor by exactly
`getTotalLength()` fails on the code for every List tag.  For the empty
List of element type 1 with empty name: `toBytes` into a 12-byte buffer
advances the offset by 10 (5 header bytes plus the 5-byte element-type/count
prefix), while `getTotalLength()` returns 12 (its payload length counts
`2 + (1 + 4 + Σ child totals)`). -/
theorem c2_encode_advance_ne_totalLength :
    Tag.toBytes (.list 0 [] 1 []) ⟨List.replicate 12 0, 0⟩ =
      .ok ⟨[9, 0, 0, 0, 0, 1, 0, 0, 0, 0, 0, 0], 10⟩ ∧
    Tag.getTotalLength (.list 0 [] 1 []) = 12 ∧ (10 : ℕ) ≠ 12 :=
  ⟨by decide, by decide, by decide⟩

/-- C3: the claimed named-tag header layout (1 byte id, 2-byte big-endian
name length equal to the name byte count, then exactly that many name bytes)
is what the decoder reads, but not what the encoder writes.  For
`TAG_Byte(nameLength 1, name "a", payload 5)` the encoder produces the
header bytes `[1, 0, 0, 97, 1]` (a 32-bit big-endian name length at offset
1 whose low bytes collide with the name written from offset 3), so the
2-byte big-endian field at offsets 1–2 holds 0, not the name length 1;
the decoder (`_getNBTName`) does read a 2-byte length followed by that many
name bytes. -/
theorem c3_header_layout_mismatch :
    Tag.writeHeader (.byte 1 [97] (.fin 5)) ⟨List.replicate 6 0, 0⟩ =
      .ok ⟨[1, 0, 0, 97, 1, 0], 5⟩ ∧
    beVal [1, 0, 0, 97, 1, 0] 1 2 = 0 ∧ (0 : ℕ) ≠ 1 ∧
    getNBTName ⟨[1, 0, 1, 97], 1⟩ = .ok (([97], 1), ⟨[1, 0, 1, 97], 4⟩) :=
  ⟨rfl, rfl, by decide, rfl⟩

/-- C4 (counterexample): the claim that a List's `getPayloadLength()` equals
`5 + Σ element total lengths` is false at the empty List of element type 1:
the code returns `2 + (1 + 4 + 0) = 7`, not `5`. -/
theorem c4_list_payloadLength_counterexample :
    ¬ Tag.getPayloadLength (.list 0 [] 1 []) =
        5 + (([] : List Tag).map Tag.getTotalLength).sum := by decide

/-- C4 (amended): for every List tag, `getPayloadLength()` equals
`7 + Σ element total lengths` (the constructor caches
`1 + 4 + Σ totals` and `getPayloadLength` adds a further 2); for every
Compound tag it equals exactly the sum of its members' total lengths. -/
theorem c4_container_payloadLength :
    (∀ (n : ℕ) (nm : List ℕ) (tt : ℕ) (p : List Tag),
        Tag.getPayloadLength (.list n nm tt p) =
          7 + (p.map Tag.getTotalLength).sum) ∧
    (∀ (n : ℕ) (nm : List ℕ) (p : List Tag),
        Tag.getPayloadLength (.compound n nm p) =
          (p.map Tag.getTotalLength).sum) := by
  constructor
  · intro n nm tt p
    simp [Tag.getPayloadLength, totalLengthList_eq]
    omega
  · intro n nm p
    simp [Tag.getPayloadLength, totalLengthList_eq]

/-- C5: the claim that every integer variant rejects non-integral payloads
fails on the code: `TAG_Byte` has no integrality check, so constructing a
Byte with the non-integral payload 1/2 succeeds (while `TAG_Short` and
`TAG_Int` do reject it); the boundary behaviour 128 / -129 rejected and
127 / -128 accepted holds as claimed. -/
theorem c5_byte_accepts_nonintegral :
    resErr (TAG_Byte.mk 0 [] (.fin (mkRat 1 2))) = none ∧
    (JSNum.fin (mkRat 1 2)).isInteger = false ∧
    resErr (TAG_Byte.mk 0 [] (.fin 128)) = some .invalidPayload ∧
    resErr (TAG_Byte.mk 0 [] (.fin (-129))) = some .invalidPayload ∧
    resErr (TAG_Byte.mk 0 [] (.fin 127)) = none ∧
    resErr (TAG_Byte.mk 0 [] (.fin (-128))) = none ∧
    resErr (TAG_Short.mk 0 [] (.fin (mkRat 1 2))) = some .invalidPayload ∧
    resErr (TAG_Int.mk 0 [] (.fin (mkRat 1 2))) = some .invalidPayload :=
  ⟨by decide, by decide, by decide, by decide, by decide, by decide,
   by decide, by decide⟩

/-- C6: the claim that `TAG_Long` accepts exactly `[-2^63, 2^63 - 1]` and
rejects `2^63` fails on the code: because the source's upper bound
`BigInt(9223372036854775807)` is built from a `number` literal that rounds
to `2^63`, the constructor accepts `2^63` (= 9223372036854775808) and
rejects only from `2^63 + 1`; the lower bound `-2^63` behaves as claimed. -/
theorem c6_long_accepts_two_pow_63 :
    TAG_Long.mk 0 [] (2 ^ 63) = .ok (.long 0 [] (2 ^ 63)) ∧
    TAG_Long.mk 0 [] (2 ^ 63 + 1) = .error .invalidPayload ∧
    TAG_Long.mk 0 [] (-(2 ^ 63)) = .ok (.long 0 [] (-(2 ^ 63))) ∧
    TAG_Long.mk 0 [] (-(2 ^ 63) - 1) = .error .invalidPayload :=
  ⟨rfl, rfl, rfl, rfl⟩

/-- C7 (counterexample): the claim that every buffer whose first byte is an
unknown id (outside 0–12) fails with the unknown-tag error immediately on
the id, before further bytes are read, is false: for the 1-byte buffer
`[13]` the decoder goes on to read the 2-byte name length first and fails
with the out-of-bounds `RangeError` (a truncation error), not the
unknown-tag error. -/
theorem c7_unknown_id_truncated_counterexample :
    resErr (parseNBT 9 ⟨[13], 0⟩) = some .rangeError ∧
    Err.rangeError ≠ Err.unknownTag :=
  ⟨by decide, by decide⟩

/-- C7 (amended): for every buffer whose first (id) byte lies outside 0–12
and that contains the complete 2-byte big-endian name length and that many
name bytes after it, decoding fails with the unknown-tag error — raised
only after the name-length and name fields have been read (with arbitrary
trailing bytes allowed). -/
theorem c7_unknown_id_after_name (id hi lo : ℕ) (nm rest : List ℕ)
    (fuel : ℕ) (h12 : 12 < id) (_hid : id ≤ 255) (_hhi : hi ≤ 255)
    (_hlo : lo ≤ 255) (hnm : nm.length = 256 * hi + lo) :
    parseNBT (fuel + 1) ⟨id :: hi :: lo :: (nm ++ rest), 0⟩ =
      .error .unknownTag := by
  have e1 : readUint8 ⟨id :: hi :: lo :: (nm ++ rest), 0⟩
      = .ok (id, ⟨id :: hi :: lo :: (nm ++ rest), 1⟩) := by
    simp [readUint8, viewOk, byteAt]
  have e2 : getNBTName ⟨id :: hi :: lo :: (nm ++ rest), 1⟩
      = .ok ((nm, 256 * hi + lo),
             ⟨id :: hi :: lo :: (nm ++ rest), 3 + (256 * hi + lo)⟩) := by
    simp only [getNBTName, readUint16, readBytesSlice, viewOk, beVal, byteAt]
    rw [if_pos (by simp)]
    have hswap : hi * 256 + lo = nm.length := by omega
    simp [hswap, ← hnm, List.take_left]
    rw [if_pos (by omega)]
  have hne : (id != 0) = true := by simp; omega
  have hle : ¬ (id ≤ 12) := by omega
  simp only [parseNBT]
  rw [if_neg (by simp)]
  simp [e1, e2, hne, hle]

/-- Witness for C7 (amended): the 3-byte buffer `[13, 0, 0]` (unknown id 13
followed by a zero name length) decodes to the unknown-tag error. -/
theorem c7_unknown_id_after_name_witness :
    parseNBT 9 ⟨[13, 0, 0], 0⟩ = .error .unknownTag :=
  c7_unknown_id_after_name 13 0 0 [] [] 8 (by decide) (by decide) (by decide)
    (by decide) (by decide)

/-- C8: every primitive field read of the decoder is bounds-checked against
the buffer extent before reading (the `DataView` / typed-array view
construction) and fails with the out-of-bounds `RangeError` — a
truncation-kind error — whenever the required bytes exceed the buffer; in
particular decoding the 3-byte buffer `[2, 0, 0]` (the header of a Short
tag with empty name, missing its 2-byte payload) fails with that error at
the payload read. -/
theorem c8_truncation_checks :
    (∀ (st : Stream) (n : ℕ), st.buffer.length < st.byteOffset + n →
        readBytesSlice st n = .error .rangeError) ∧
    (∀ st : Stream, st.buffer.length < st.byteOffset + 1 →
        readUint8 st = .error .rangeError ∧ readInt8 st = .error .rangeError) ∧
    (∀ st : Stream, st.buffer.length < st.byteOffset + 2 →
        readUint16 st = .error .rangeError ∧ readInt16 st = .error .rangeError) ∧
    (∀ st : Stream, st.buffer.length < st.byteOffset + 4 →
        readInt32 st = .error .rangeError ∧ readFloat32 st = .error .rangeError) ∧
    (∀ st : Stream, st.buffer.length < st.byteOffset + 8 →
        readInt64 st = .error .rangeError ∧ readFloat64 st = .error .rangeError) ∧
    resErr (parseNBT 9 ⟨[2, 0, 0], 0⟩) = some .rangeError ∧
    Err.isTruncation .rangeError = true := by
  refine ⟨?_, ?_, ?_, ?_, ?_, by decide, by decide⟩
  · intro st n h
    simp [readBytesSlice, viewOk]
    omega
  · intro st h
    constructor <;> · simp [readUint8, readInt8, viewOk]; omega
  · intro st h
    constructor <;> · simp [readUint16, readInt16, viewOk]; omega
  · intro st h
    constructor <;> · simp [readInt32, readFloat32, viewOk]; omega
  · intro st h
    constructor <;> · simp [readInt64, readFloat64, viewOk]; omega

/-- Witness for C8: a slice read of 2 bytes at offset 3 of the 3-byte buffer
`[2, 0, 0]` fails with the out-of-bounds error. -/
theorem c8_truncation_checks_witness :
    readBytesSlice ⟨[2, 0, 0], 3⟩ 2 = .error .rangeError :=
  c8_truncation_checks.1 ⟨[2, 0, 0], 3⟩ 2 (by decide)

/-- C9 (counterexample): the claim that every Compound whose payload does
not end in an End tag fails with the structural error is false for the
empty payload: `payload[payload.length - 1]` is `undefined` and the `.id`
access throws a `TypeError`, which is neither of the structural errors. -/
theorem c9_empty_compound_counterexample :
    TAG_Compound.mk 0 [] [] = .error .typeError ∧
    Err.typeError ≠ Err.compoundNoEnd ∧ Err.typeError ≠ Err.listMismatch :=
  ⟨rfl, by decide, by decide⟩

/-- C9 (amended): constructing a Compound with a nonempty payload whose last
element is not an End tag fails with the structural error; an empty payload
fails too, but with a `TypeError` (undefined last element); a Compound whose
payload is exactly `[End]` constructs successfully and its payload encodes
to the single zero byte (the End tag's 1-byte type id, with no name length,
name, or payload bytes). -/
theorem c9_compound_termination :
    (∀ (n : ℕ) (nm : List ℕ) (ts : List Tag) (t : Tag), t.id ≠ 0 →
        TAG_Compound.mk n nm (ts ++ [t]) = .error .compoundNoEnd) ∧
    TAG_Compound.mk 0 [] [] = .error .typeError ∧
    TAG_Compound.mk 0 [] [.tagEnd] = .ok (.compound 0 [] [.tagEnd]) ∧
    Tag.writePayload (.compound 0 [] [.tagEnd]) ⟨[7], 0⟩ = .ok ⟨[0], 1⟩ :=
  ⟨fun n nm ts t h => by simp [TAG_Compound.mk, List.getLast?_concat, h],
   rfl, rfl, by decide⟩

/-- Witness for C9 (amended): a Compound whose payload is a single Byte tag
(id 1 ≠ 0) fails with the structural error. -/
theorem c9_compound_termination_witness :
    TAG_Compound.mk 0 [] [Tag.byte 0 [] (.fin 1)] = .error .compoundNoEnd :=
  c9_compound_termination.1 0 [] [] (Tag.byte 0 [] (.fin 1)) (by decide)

/-- C10: there are buffers that are well-formed under the wire grammar on
which decode raises an error: the 7-byte buffer `[5,0,0,0x40,0,0,0]` is a
complete Float tag (id 5, zero name length, 4 payload bytes decoding to the
integral value 2.0), and the 12-byte buffer `[9,0,0,5,0,0,0,1,0x40,0,0,0]`
is a complete List of one Float element with the same payload; decoding
either one throws the constructor's validation error, because the decoder
re-runs the `TAG_Float` check that rejects integer-valued payloads. -/
theorem c10_integral_float_decode_fails :
    resErr (parseNBT 9 ⟨[5, 0, 0, 0x40, 0, 0, 0], 0⟩) = some .invalidPayload ∧
    resErr (parseNBT 9 ⟨[9, 0, 0, 5, 0, 0, 0, 1, 0x40, 0, 0, 0], 0⟩) =
      some .invalidPayload ∧
    decodeFloat32 (beVal [0x40, 0, 0, 0] 0 4) = .fin 2 ∧
    (JSNum.fin 2).isInteger = true :=
  ⟨by decide, by decide, by decide, by decide⟩

end NBT
